import Mathlib

set_option autoImplicit false

/-!
Verification of the cross-provider price comparison core of the
CMPE272 CloudAnalytics API Gateway (files `app/compare.py`, `app/aws.py`,
`app/azure.py`), shallowly embedded in Lean.  Price amounts are modelled
as rationals; optional values (`None` in Python) as `Option`; the one
place where a float NaN matters (`_fallback_zero`) gets a dedicated
float model `PFloat` with an explicit NaN.
-/

namespace Gateway

/-- Python builtin `min` over a list of rationals (`min(vals)`), absent for
the empty list.  Python folds with strict `<`, which over a linear order
computes the same value as `min`-folding. -/
def pyMin (vals : List ℚ) : Option ℚ :=
  match vals with
  | [] => none
  | v :: vs => some (vs.foldl min v)

/-- Embedding of `compare.py::_min_nonzero_or_none` (lines 36-43): keep the
candidates that are present and strictly positive; if any, return their
minimum; otherwise return the minimum of all present values, or `None`
when nothing is present. -/
def min_nonzero_or_none (vals : List (Option ℚ)) : Option ℚ :=
  let candidates := (vals.filterMap id).filter (fun v => decide (0 < v))
  if candidates = [] then pyMin (vals.filterMap id) else pyMin candidates

/-- Embedding of `compare.py::_cheapest` (lines 87-98).  Side A is AWS and
side B is Azure; a tie is reported as the string `Same`. -/
def cheapest (a z : Option ℚ) : String :=
  match a, z with
  | none, none => "Same"
  | none, some _ => "Azure"
  | some _, none => "AWS"
  | some p, some q => if p < q then "AWS" else if q < p then "Azure" else "Same"

/-- The static `AWS_TO_AZURE_REGION` table of `compare.py` (lines 10-28). -/
def AWS_TO_AZURE_REGION : List (String × String) :=
  [("us-east-1", "eastus"),
   ("us-east-2", "eastus2"),
   ("us-west-1", "westus"),
   ("us-west-2", "westus2"),
   ("ca-central-1", "canadacentral"),
   ("eu-west-1", "westeurope"),
   ("eu-west-2", "uksouth"),
   ("eu-west-3", "francecentral"),
   ("eu-north-1", "northeurope"),
   ("eu-central-1", "germanywestcentral"),
   ("ap-south-1", "centralindia"),
   ("ap-southeast-1", "southeastasia"),
   ("ap-southeast-2", "australiaeast"),
   ("ap-northeast-1", "japaneast"),
   ("ap-northeast-2", "koreacentral"),
   ("ap-east-1", "eastasia"),
   ("sa-east-1", "brazilsouth")]

/-- Python `str.strip()`: drop whitespace from both ends.  Modelled over the
character list (structurally recursive, hence kernel-evaluable, unlike
`String.trim` whose `Substring` helpers are well-founded). -/
def pyStrip (s : String) : String :=
  ⟨((s.data.dropWhile Char.isWhitespace).reverse.dropWhile Char.isWhitespace).reverse⟩

/-- Table lookup branch of `map_azure_region`:
`AWS_TO_AZURE_REGION.get(aws_region.strip(), aws_region.strip())`. -/
def lookupAwsRegion (aws_region : String) : String :=
  (AWS_TO_AZURE_REGION.lookup (pyStrip aws_region)).getD (pyStrip aws_region)

/-- Embedding of `compare.py::map_azure_region` (lines 30-33).  A Python
string that is `None` is `none`; the truthiness test
`azure_region and azure_region.strip()` succeeds exactly when the
override is present and non-empty after stripping, and then the
stripped override is returned. -/
def map_azure_region (aws_region : String) (azure_region : Option String) : String :=
  match azure_region with
  | some s => if pyStrip s = "" then lookupAwsRegion aws_region else pyStrip s
  | none => lookupAwsRegion aws_region

/-- Model of a Python float value as it can reach `_fallback_zero`: either a
real (rational) amount or NaN. -/
inductive PFloat where
  | num (q : ℚ)
  | nan
deriving DecidableEq

/-- Embedding of `compare.py::_fallback_zero` (lines 84-85):
`float(v) if (v is not None and not math.isnan(float(v))) else 0.0`. -/
def fallback_zero (v : Option PFloat) : ℚ :=
  match v with
  | some (PFloat.num q) => q
  | some PFloat.nan => 0
  | none => 0

/-- A scalar from a parsed JSON document as fed to Python `float()`: the raw
field together with the result of `float(...)` on it (`none` when the call
would raise). -/
structure JNum where
  raw : String
  val : Option ℚ
deriving DecidableEq

/-- One entry of an AWS `priceDimensions` mapping: its `unit` label and the
optional `pricePerUnit.USD` field. -/
structure PriceDim where
  unit : String
  usd : Option JNum
deriving DecidableEq

/-- One value of the `terms.OnDemand` mapping, in iteration order. -/
structure OdTerm where
  priceDimensions : List PriceDim
deriving DecidableEq

/-- One raw AWS price-list item, restricted to the fields the comparison
pipeline reads: the `terms.OnDemand` values in iteration order. -/
structure AwsItem where
  onDemand : List OdTerm
deriving DecidableEq

/-- Inner loops of `compare.py::_min_price_from_aws` (lines 54-64) for one
item, over the item's dimensions flattened in iteration order: append
`float(usd)` whenever `pricePerUnit.USD` is present; an exception from
`float` aborts the rest of this item (the `except ...: continue`), keeping
the prices already appended. -/
def awsItemPrices (dims : List PriceDim) : List ℚ :=
  match dims with
  | [] => []
  | d :: ds =>
    match d.usd with
    | none => awsItemPrices ds
    | some f =>
      match f.val with
      | some q => q :: awsItemPrices ds
      | none => []

/-- All price dimensions of an item across its OnDemand terms, in
iteration order. -/
def awsDims (it : AwsItem) : List PriceDim :=
  it.onDemand.flatMap (fun t => t.priceDimensions)

/-- The full candidate list collected by `_min_price_from_aws` from the
response items. -/
def awsExtract (items : List AwsItem) : List ℚ :=
  items.flatMap (fun it => awsItemPrices (awsDims it))

/-- An HTTP response of the internal `/aws/prices?...&raw=true` call: status
code and parsed items. -/
structure AwsResponse where
  status : ℕ
  items : List AwsItem
deriving DecidableEq

/-- Embedding of `compare.py::_min_price_from_aws` (lines 45-65) given the
response of the internal AWS price call: any non-200 status becomes an
absent price; otherwise the extracted candidates are aggregated. -/
def min_price_from_aws (r : AwsResponse) : Option ℚ :=
  if r.status = 200 then min_nonzero_or_none ((awsExtract r.items).map some)
  else none

/-- One raw Azure retail-price item, restricted to the field the comparison
pipeline reads: the optional `retailPrice`. -/
structure AzureItem where
  retailPrice : Option JNum
deriving DecidableEq

/-- An HTTP response of the internal `/azure/prices` call. -/
structure AzureResponse where
  status : ℕ
  items : List AzureItem
deriving DecidableEq

/-- Candidate list collected by `_min_price_from_azure` (lines 74-81): each
present and parseable `retailPrice`; an unparseable one is skipped
(`except ...: pass`). -/
def azureExtract (items : List AzureItem) : List ℚ :=
  items.filterMap (fun it => it.retailPrice.bind (fun f => f.val))

/-- Embedding of `compare.py::_min_price_from_azure` (lines 67-82). -/
def min_price_from_azure (r : AzureResponse) : Option ℚ :=
  if r.status = 200 then min_nonzero_or_none ((azureExtract r.items).map some)
  else none

/-- Parameters of one `_min_price_from_aws` call from the VM branch of
`compare_service` (lines 116-123). -/
structure AwsQuery where
  service_code : String
  region : String
  instance_type : Option String
  operating_system : Option String
  max_pages : ℕ
deriving DecidableEq

/-- Parameters of one `_min_price_from_azure` call: service name, ARM
region, optional skuName facet, page bound. -/
structure AzQuery where
  service_name : String
  arm_region_name : String
  sku_name : Option String
  max_pages : ℕ
deriving DecidableEq

/-- The parts of the `/compare/service` VM response the claims speak about,
plus the sequence of Azure queries issued (explicit effect log of the
otherwise stateful control flow). -/
structure VmOut where
  aws_price : Option ℚ
  azure_price : Option ℚ
  cheapest_provider : String
  azure_queries : List AzQuery
deriving DecidableEq

/-- Embedding of the VM branch of `compare.py::compare_service`
(lines 115-160), with the two provider pipelines abstracted as functions
from query parameters to the representative price they return.  The Azure
pipeline is first asked with the skuName facet; exactly when that yields
no price, the same query without the skuName facet is issued and used. -/
def compare_service_vm (awsFetch : AwsQuery → Option ℚ) (azFetch : AzQuery → Option ℚ)
    (region : String) (azure_region : Option String)
    (instance_type azure_sku : String) (max_pages : ℕ) : VmOut :=
  let az_region := map_azure_region region azure_region
  let aws_price := awsFetch ⟨"AmazonEC2", region, some instance_type, some "Linux", max_pages⟩
  let q1 : AzQuery := ⟨"Virtual%20Machines", az_region, some azure_sku, max_pages⟩
  match azFetch q1 with
  | some p => ⟨aws_price, some p, cheapest aws_price (some p), [q1]⟩
  | none =>
    let q2 : AzQuery := ⟨"Virtual%20Machines", az_region, none, max_pages⟩
    let azure_price := azFetch q2
    ⟨aws_price, azure_price, cheapest aws_price azure_price, [q1, q2]⟩

/-- Parameters of the `_min_price_from_aws` call in `compare_db_sql`
(lines 176-184). -/
structure DbAwsQuery where
  service_code : String
  region : String
  database_engine : String
  deployment_option : String
  license_model : String
  max_pages : ℕ
deriving DecidableEq

/-- The AWS price of `compare_db_sql`. -/
def db_aws_price (awsFetch : DbAwsQuery → Option ℚ)
    (region database_engine deployment_option license_model : String) (max_pages : ℕ) :
    Option ℚ :=
  awsFetch ⟨"AmazonRDS", region, database_engine, deployment_option, license_model, max_pages⟩

/-- The Azure price of `compare_db_sql` (lines 185-198): first with the
skuName facet, then, when that is absent, once more without it. -/
def db_azure_price (azFetch : AzQuery → Option ℚ)
    (az_region sku_name : String) (max_pages : ℕ) : Option ℚ :=
  match azFetch ⟨"SQL%20Database", az_region, some sku_name, max_pages⟩ with
  | some p => some p
  | none => azFetch ⟨"SQL%20Database", az_region, none, max_pages⟩

/-- The parts of a fallback-to-zero scenario response the claims speak
about: the two displayed prices and the declared winner. -/
structure ZeroFallbackOut where
  aws_price_usd : ℚ
  azure_price_usd : ℚ
  cheapest_provider : String
deriving DecidableEq

/-- Embedding of `compare.py::compare_db_sql` (lines 163-219): displayed
prices fall back to 0.0 via `_fallback_zero`, the winner is computed with
`_cheapest` on the original optional values. -/
def compare_db_sql (awsFetch : DbAwsQuery → Option ℚ) (azFetch : AzQuery → Option ℚ)
    (region : String) (azure_region : Option String)
    (database_engine deployment_option license_model sku_name : String) (max_pages : ℕ) :
    ZeroFallbackOut :=
  let az_region := map_azure_region region azure_region
  let aws_price := db_aws_price awsFetch region database_engine deployment_option
    license_model max_pages
  let azure_price := db_azure_price azFetch az_region sku_name max_pages
  { aws_price_usd := fallback_zero (aws_price.map PFloat.num)
    azure_price_usd := fallback_zero (azure_price.map PFloat.num)
    cheapest_provider := cheapest aws_price azure_price }

/-- Parameters of the `_min_price_from_aws` call in
`compare_load_balancer` (lines 289-291). -/
structure LbAwsQuery where
  service_code : String
  region : String
  max_pages : ℕ
deriving DecidableEq

/-- The AWS price of `compare_load_balancer`. -/
def lb_aws_price (awsFetch : LbAwsQuery → Option ℚ) (region : String) (max_pages : ℕ) :
    Option ℚ :=
  awsFetch ⟨"AWSELB", region, max_pages⟩

/-- The Azure price of `compare_load_balancer` (lines 292-294), no retry. -/
def lb_azure_price (azFetch : AzQuery → Option ℚ) (az_region : String) (max_pages : ℕ) :
    Option ℚ :=
  azFetch ⟨"Load%20Balancer", az_region, none, max_pages⟩

/-- Embedding of `compare.py::compare_load_balancer` (lines 281-306). -/
def compare_load_balancer (awsFetch : LbAwsQuery → Option ℚ) (azFetch : AzQuery → Option ℚ)
    (region : String) (azure_region : Option String) (max_pages : ℕ) : ZeroFallbackOut :=
  let az_region := map_azure_region region azure_region
  let aws_price := lb_aws_price awsFetch region max_pages
  let azure_price := lb_azure_price azFetch az_region max_pages
  { aws_price_usd := fallback_zero (aws_price.map PFloat.num)
    azure_price_usd := fallback_zero (azure_price.map PFloat.num)
    cheapest_provider := cheapest aws_price azure_price }

/-- The parts of the `/compare/block-storage` success response the claims
speak about. -/
structure BlockOut where
  aws_price : Option ℚ
  azure_price : Option ℚ
  cheapest_provider : String
deriving DecidableEq

/-- Embedding of `compare.py::compare_block_storage` (lines 246-278) given
the two internal HTTP responses: both representative prices absent raises
HTTPException 404, otherwise a normal result is assembled. -/
def compare_block_storage (ra : AwsResponse) (rz : AzureResponse) : Except ℕ BlockOut :=
  let aws_price := min_price_from_aws ra
  let azure_price := min_price_from_azure rz
  match aws_price, azure_price with
  | none, none => Except.error 404
  | a, z => Except.ok ⟨a, z, cheapest a z⟩

/-- One page of the AWS Pricing `get_products` feed: the `PriceList` items
and the optional `NextToken`. -/
structure AwsPage where
  priceList : List String
  nextToken : Option String

/-- Loop body of `aws.py::get_products_paginated` (lines 63-77): the remote
feed is modelled as a function from the number of requests already made to
the next response, and `fuel` stands for `max_pages - pages`, so the
`while pages < max_pages` guard becomes structural recursion.  Returns the
accumulated items and the final value of the `pages` counter. -/
def awsPaginateGo (feed : ℕ → AwsPage) : ℕ → ℕ → List String → List String × ℕ
  | 0, pages, acc => (acc, pages)
  | fuel + 1, pages, acc =>
    match (feed pages).nextToken with
    | none => (acc ++ (feed pages).priceList, pages + 1)
    | some _ => awsPaginateGo feed fuel (pages + 1) (acc ++ (feed pages).priceList)

/-- Embedding of `aws.py::get_products_paginated`. -/
def get_products_paginated (feed : ℕ → AwsPage) (max_pages : ℕ) : List String × ℕ :=
  awsPaginateGo feed max_pages 0 []

/-- One page of the Azure retail-prices feed: HTTP status, body (carried by
the raised error), the `Items`, and the optional `NextPageLink`. -/
structure AzurePage where
  status : ℕ
  body : String
  items : List AzureItem
  nextPageLink : Option String

/-- Loop of `azure.py::fetch` (lines 9-22): a non-200 page raises
HTTPException, modelled as `Except.error` carrying status and body;
otherwise items accumulate until a page has no `NextPageLink` or the page
bound is reached.  The second component is the final `pages` counter. -/
def azureFetchGo (feed : ℕ → AzurePage) :
    ℕ → ℕ → List AzureItem → (Except (ℕ × String) (List AzureItem)) × ℕ
  | 0, pages, acc => (Except.ok acc, pages)
  | fuel + 1, pages, acc =>
    if (feed pages).status = 200 then
      match (feed pages).nextPageLink with
      | none => (Except.ok (acc ++ (feed pages).items), pages + 1)
      | some _ => azureFetchGo feed fuel (pages + 1) (acc ++ (feed pages).items)
    else (Except.error ((feed pages).status, (feed pages).body), pages)

/-- Embedding of `azure.py::fetch`. -/
def fetch (feed : ℕ → AzurePage) (max_pages : ℕ) :
    (Except (ℕ × String) (List AzureItem)) × ℕ :=
  azureFetchGo feed max_pages 0 []

/-- The comparison scenarios exposed by `compare.py`. -/
inductive Scenario where
  | service
  | dbSql
  | egress
  | blockStorage
  | loadBalancer
  | dns
  | azCoverage
deriving DecidableEq

/-- The `ge`/`le` validation bounds declared on each scenario endpoint's
`max_pages` query parameter (`compare.py` lines 110, 172, 226, 253, 285,
313, 337). -/
def max_pages_bounds : Scenario → ℤ × ℤ
  | Scenario.service => (1, 5)
  | Scenario.dbSql => (1, 5)
  | Scenario.egress => (1, 5)
  | Scenario.blockStorage => (1, 5)
  | Scenario.loadBalancer => (1, 5)
  | Scenario.dns => (1, 5)
  | Scenario.azCoverage => (1, 2)

/-- FastAPI accepts a `max_pages` value exactly when it satisfies the
declared bounds; out-of-range values are rejected at query-parameter
validation, before the handler body (and hence any fetch) runs. -/
def max_pages_ok (s : Scenario) (n : ℤ) : Bool :=
  (max_pages_bounds s).1 ≤ n && n ≤ (max_pages_bounds s).2

/-- The page-count bound the spec asserts for every scenario endpoint: 1 to
10 inclusive (stated from the spec's words, for comparison with the
implemented bounds). -/
def spec_max_pages_ok (n : ℤ) : Bool :=
  1 ≤ n && n ≤ 10

/-! ### Helper lemmas about the Python minimum -/

theorem foldl_min_mem (x : ℚ) (xs : List ℚ) : xs.foldl min x ∈ x :: xs := by
  induction xs generalizing x with
  | nil => simp
  | cons y ys ih =>
    simp only [List.foldl_cons]
    rcases List.mem_cons.mp (ih (min x y)) with h | h
    · rw [h]
      rcases min_choice x y with hm | hm <;> rw [hm] <;> simp
    · exact List.mem_cons.mpr (Or.inr (List.mem_cons.mpr (Or.inr h)))

theorem foldl_min_le (x : ℚ) (xs : List ℚ) :
    ∀ y ∈ x :: xs, xs.foldl min x ≤ y := by
  induction xs generalizing x with
  | nil =>
    intro y hy
    rw [List.mem_singleton] at hy
    subst hy
    exact le_refl _
  | cons z zs ih =>
    intro y hy
    simp only [List.foldl_cons]
    have hmin : zs.foldl min (min x z) ≤ min x z :=
      ih (min x z) (min x z) (List.mem_cons_self _ _)
    rcases List.mem_cons.mp hy with h | h
    · subst h
      exact le_trans hmin (min_le_left _ _)
    · rcases List.mem_cons.mp h with h2 | h2
      · subst h2
        exact le_trans hmin (min_le_right _ _)
      · exact ih (min x z) y (List.mem_cons.mpr (Or.inr h2))

theorem pyMin_spec (vals : List ℚ) (hne : vals ≠ []) :
    ∃ m, pyMin vals = some m ∧ m ∈ vals ∧ ∀ y ∈ vals, m ≤ y := by
  match vals with
  | [] => exact absurd rfl hne
  | v :: vs =>
    exact ⟨vs.foldl min v, rfl, foldl_min_mem v vs, foldl_min_le v vs⟩

theorem pyMin_nil : pyMin [] = none := rfl

/-- C1: the aggregator prefers the minimum strictly positive present amount;
with no positive but some present amount it returns the minimum present
amount; with no present amount it returns absent. -/
theorem C1_select_representative (vals : List (Option ℚ)) :
    ((∃ q ∈ vals.filterMap id, 0 < q) →
      ∃ m, min_nonzero_or_none vals = some m ∧ 0 < m ∧ m ∈ vals.filterMap id ∧
        ∀ q ∈ vals.filterMap id, 0 < q → m ≤ q) ∧
    ((vals.filterMap id ≠ [] ∧ ∀ q ∈ vals.filterMap id, ¬ 0 < q) →
      ∃ m, min_nonzero_or_none vals = some m ∧ m ∈ vals.filterMap id ∧
        ∀ q ∈ vals.filterMap id, m ≤ q) ∧
    (vals.filterMap id = [] → min_nonzero_or_none vals = none) := by
  refine ⟨?_, ?_, ?_⟩
  · rintro ⟨q, hqmem, hqpos⟩
    have hqC : q ∈ (vals.filterMap id).filter (fun v => decide (0 < v)) :=
      List.mem_filter.mpr ⟨hqmem, by simpa using hqpos⟩
    have hCne : (vals.filterMap id).filter (fun v => decide (0 < v)) ≠ [] :=
      List.ne_nil_of_mem hqC
    have hres : min_nonzero_or_none vals =
        pyMin ((vals.filterMap id).filter (fun v => decide (0 < v))) := by
      simp only [min_nonzero_or_none, if_neg hCne]
    obtain ⟨m, hm, hmem, hle⟩ := pyMin_spec _ hCne
    obtain ⟨hmP, hmpos⟩ := List.mem_filter.mp hmem
    refine ⟨m, hres.trans hm, by simpa using hmpos, hmP, ?_⟩
    intro r hrP hrpos
    exact hle r (List.mem_filter.mpr ⟨hrP, by simpa using hrpos⟩)
  · rintro ⟨hPne, hnopos⟩
    have hC : (vals.filterMap id).filter (fun v => decide (0 < v)) = [] := by
      rw [List.filter_eq_nil_iff]
      intro a ha
      simpa using hnopos a ha
    have hres : min_nonzero_or_none vals = pyMin (vals.filterMap id) := by
      simp [min_nonzero_or_none, hC]
    obtain ⟨m, hm, hmem, hle⟩ := pyMin_spec _ hPne
    exact ⟨m, hres.trans hm, hmem, hle⟩
  · intro hP
    simp [min_nonzero_or_none, hP, pyMin]

/-- Witness for C1 at the spec's own example: candidates -5 and 3. -/
theorem C1_select_representative_witness :
    ∃ m, min_nonzero_or_none [some (-5 : ℚ), some 3] = some m ∧ 0 < m ∧
      m ∈ ([some (-5 : ℚ), some 3] : List (Option ℚ)).filterMap id ∧
      ∀ q ∈ ([some (-5 : ℚ), some 3] : List (Option ℚ)).filterMap id, 0 < q → m ≤ q :=
  (C1_select_representative [some (-5), some 3]).1 ⟨3, by simp, by norm_num⟩

/-- C3: the comparator yields Tie (the string Same) when both sides are
absent, declares the present side cheaper when exactly one is present, and
compares numerically when both are present, equal amounts giving Tie. -/
theorem C3_cheapest_policy (p q : ℚ) :
    cheapest none none = "Same" ∧
    cheapest (some p) none = "AWS" ∧
    cheapest none (some q) = "Azure" ∧
    (p < q → cheapest (some p) (some q) = "AWS") ∧
    (q < p → cheapest (some p) (some q) = "Azure") ∧
    (p = q → cheapest (some p) (some q) = "Same") := by
  refine ⟨rfl, rfl, rfl, ?_, ?_, ?_⟩
  · intro h
    show (if p < q then "AWS" else if q < p then "Azure" else "Same") = "AWS"
    rw [if_pos h]
  · intro h
    show (if p < q then "AWS" else if q < p then "Azure" else "Same") = "Azure"
    rw [if_neg (not_lt.mpr h.le), if_pos h]
  · intro h
    subst h
    show (if p < p then "AWS" else if p < p then "Azure" else "Same") = "Same"
    rw [if_neg (lt_irrefl p), if_neg (lt_irrefl p)]

/-- Witness for C3 at the spec's example inputs 5.0, 3.0, 2.0. -/
theorem C3_cheapest_policy_witness :
    cheapest (some (5 : ℚ)) none = "AWS" ∧ cheapest none (some (5 : ℚ)) = "Azure" ∧
    cheapest (some (3 : ℚ)) (some 3) = "Same" ∧ cheapest (some (2 : ℚ)) (some 3) = "AWS" :=
  ⟨(C3_cheapest_policy 5 5).2.1, (C3_cheapest_policy 5 5).2.2.1,
   (C3_cheapest_policy 3 3).2.2.2.2.2 rfl,
   (C3_cheapest_policy 2 3).2.2.2.1 (by norm_num)⟩

/-- Counterexample to C8 as stated: with the override string padded by
spaces (still non-empty after trimming), `map_azure_region` returns the
trimmed override, not the override verbatim. -/
theorem C8_map_region_counterexample :
    map_azure_region "us-east-1" (some " westus2 ") = "westus2" ∧
    (" westus2 " : String) ≠ "westus2" := by
  exact ⟨by decide, by decide⟩

/-- C8 amended: a non-blank override is returned trimmed (not verbatim); a
blank override behaves as no override; a source region whose trimmed form
is not in the lookup table passes through as its trimmed form; the
function is total by construction. -/
theorem C8_map_region_amended (x o : String) :
    (pyStrip o ≠ "" → map_azure_region x (some o) = pyStrip o) ∧
    (pyStrip o = "" → map_azure_region x (some o) = map_azure_region x none) ∧
    (AWS_TO_AZURE_REGION.lookup (pyStrip x) = none → map_azure_region x none = pyStrip x) := by
  refine ⟨?_, ?_, ?_⟩
  · intro h
    simp [map_azure_region, h]
  · intro h
    simp [map_azure_region, h]
  · intro h
    simp [map_azure_region, lookupAwsRegion, h]

/-- Witness for C8 amended at a padded override and an unknown region code. -/
theorem C8_map_region_amended_witness :
    map_azure_region "zz-region-9" (some " westus2 ") = pyStrip " westus2 " ∧
    map_azure_region "zz-region-9" none = pyStrip "zz-region-9" :=
  ⟨(C8_map_region_amended "zz-region-9" " westus2 ").1 (by decide),
   (C8_map_region_amended "zz-region-9" "x").2.2 (by decide)⟩

/-- C10: the display fallback returns 0.0 on an absent or NaN input and
otherwise returns the amount unchanged; in particular a NaN representative
price is displayed as 0.0 rather than propagated. -/
theorem C10_fallback_zero (v : Option PFloat) :
    ((v = none ∨ v = some PFloat.nan) → fallback_zero v = 0) ∧
    (∀ q, v = some (PFloat.num q) → fallback_zero v = q) ∧
    (v ≠ none → v ≠ some PFloat.nan → ∃ q, v = some (PFloat.num q) ∧ fallback_zero v = q) := by
  refine ⟨?_, ?_, ?_⟩
  · rintro (rfl | rfl) <;> rfl
  · rintro q rfl
    rfl
  · intro h1 h2
    match v with
    | none => exact absurd rfl h1
    | some PFloat.nan => exact absurd rfl h2
    | some (PFloat.num q) => exact ⟨q, rfl, rfl⟩

/-- The hour-unit test of `aws.py::parse_on_demand` (line 95),
`unit.lower().startswith("hr")`, rendered over the character list so that
it kernel-evaluates. -/
def isHourUnit (unit : String) : Bool :=
  (unit.data.map Char.toLower).take 2 = ['h', 'r']

/-- A raw item whose single OnDemand price dimension carries the non-hourly
unit GB-Mo and the USD amount 5. -/
def nonHourlyItem : AwsItem :=
  { onDemand :=
      [{ priceDimensions := [{ unit := "GB-Mo", usd := some { raw := "5", val := some 5 } }] }] }

/-- Counterexample to C2 as stated: the comparison pipeline's AWS extraction
(`_min_price_from_aws`) requests raw items and never consults the unit
label, so a dimension with the non-hourly unit GB-Mo still contributes its
USD amount to the candidate set, and here even becomes the representative
price. -/
theorem C2_extraction_counterexample :
    (∀ t ∈ nonHourlyItem.onDemand, ∀ d ∈ t.priceDimensions, isHourUnit d.unit = false) ∧
    awsExtract [nonHourlyItem] = [5] ∧
    min_price_from_aws { status := 200, items := [nonHourlyItem] } = some 5 := by
  refine ⟨by decide, rfl, by decide⟩

/-- C2 amended: for every item whose present USD fields all parse, the
comparison pipeline's extraction collects the USD amount of every OnDemand
price dimension with a present USD field, in order and regardless of the
unit label; the hour-prefix unit filter lives only in
`aws.py::parse_on_demand`, which the pipeline bypasses via `raw=true`. -/
theorem C2_extraction_amended (dims : List PriceDim) :
    (∀ d ∈ dims, Option.all (fun f => f.val.isSome) d.usd = true) →
    awsItemPrices dims = dims.filterMap (fun d => d.usd.bind (fun f => f.val)) := by
  intro h
  induction dims with
  | nil => rfl
  | cons d ds ih =>
    have hd := h d (List.mem_cons_self _ _)
    have hds : ∀ e ∈ ds, Option.all (fun f => f.val.isSome) e.usd = true :=
      fun e he => h e (List.mem_cons.mpr (Or.inr he))
    cases hu : d.usd with
    | none => simp [awsItemPrices, hu, List.filterMap_cons, ih hds]
    | some f =>
      cases hv : f.val with
      | none =>
        rw [hu] at hd
        simp [Option.all, hv] at hd
      | some q =>
        simp [awsItemPrices, hu, hv, List.filterMap_cons, ih hds]

/-- Witness for C2 amended at the GB-Mo dimension used by the
counterexample. -/
theorem C2_extraction_amended_witness :
    awsItemPrices [{ unit := "GB-Mo", usd := some { raw := "5", val := some 5 } }] =
      List.filterMap (fun d => d.usd.bind (fun f => f.val))
        [({ unit := "GB-Mo", usd := some { raw := "5", val := some 5 } } : PriceDim)] :=
  C2_extraction_amended _ (by decide)

/-- Witness for C10 at NaN, absent, and a plain amount. -/
theorem C10_fallback_zero_witness :
    fallback_zero (some PFloat.nan) = 0 ∧ fallback_zero none = 0 ∧
    fallback_zero (some (PFloat.num 7)) = 7 :=
  ⟨(C10_fallback_zero (some PFloat.nan)).1 (Or.inr rfl),
   (C10_fallback_zero none).1 (Or.inl rfl),
   (C10_fallback_zero (some (PFloat.num 7))).2.1 7 rfl⟩

/-- C4: in the VM scenario the SKU-constrained Azure query is re-issued,
exactly when it yields no representative price, as the same query with the
skuName facet dropped and all other facets unchanged; the response and
winner are then computed from the broadened result. -/
theorem C4_vm_sku_broadening (awsFetch : AwsQuery → Option ℚ) (azFetch : AzQuery → Option ℚ)
    (region : String) (azure_region : Option String) (instance_type azure_sku : String)
    (max_pages : ℕ) (q1 q2 : AzQuery) (out : VmOut)
    (hq1 : q1 = ⟨"Virtual%20Machines", map_azure_region region azure_region, some azure_sku,
      max_pages⟩)
    (hq2 : q2 = ⟨"Virtual%20Machines", map_azure_region region azure_region, none, max_pages⟩)
    (hout : out = compare_service_vm awsFetch azFetch region azure_region instance_type
      azure_sku max_pages) :
    (out.azure_queries = [q1, q2] ↔ azFetch q1 = none) ∧
    (azFetch q1 = none → out.azure_price = azFetch q2) ∧
    (∀ p, azFetch q1 = some p → out.azure_queries = [q1] ∧ out.azure_price = some p) ∧
    q2.service_name = q1.service_name ∧ q2.arm_region_name = q1.arm_region_name ∧
    q2.max_pages = q1.max_pages ∧ q2.sku_name = none ∧
    out.aws_price = awsFetch ⟨"AmazonEC2", region, some instance_type, some "Linux",
      max_pages⟩ ∧
    out.cheapest_provider = cheapest out.aws_price out.azure_price := by
  subst hq1 hq2 hout
  cases h : azFetch ⟨"Virtual%20Machines", map_azure_region region azure_region,
      some azure_sku, max_pages⟩ with
  | none =>
    refine ⟨by simp [compare_service_vm, h], ?_, ?_, rfl, rfl, rfl, rfl, ?_, ?_⟩
    · intro _
      simp [compare_service_vm, h]
    · intro p hp
      simp at hp
    · simp [compare_service_vm, h]
    · simp [compare_service_vm, h]
  | some p =>
    refine ⟨?_, ?_, ?_, rfl, rfl, rfl, rfl, ?_, ?_⟩
    · simp [compare_service_vm, h]
    · intro hp
      simp at hp
    · intro r hr
      rw [Option.some.injEq] at hr
      subst hr
      exact ⟨by simp [compare_service_vm, h], by simp [compare_service_vm, h]⟩
    · simp [compare_service_vm, h]
    · simp [compare_service_vm, h]

/-- An Azure fetch that only answers the facet-free (broadened) query. -/
def azFetchBroadOnly : AzQuery → Option ℚ :=
  fun q =>
    match q.sku_name with
    | some _ => none
    | none => some 3

/-- A constant AWS fetch. -/
def awsFetchConst2 : AwsQuery → Option ℚ :=
  fun _ => some 2

/-- Witness for C4 at the spec's end-to-end example inputs: us-west-2,
t3.micro, B1s; the SKU query misses and the broadened query's price is
used. -/
theorem C4_vm_sku_broadening_witness :
    (compare_service_vm awsFetchConst2 azFetchBroadOnly "us-west-2" none "t3.micro" "B1s"
        1).azure_price =
      azFetchBroadOnly ⟨"Virtual%20Machines", map_azure_region "us-west-2" none, none, 1⟩ :=
  (C4_vm_sku_broadening awsFetchConst2 azFetchBroadOnly "us-west-2" none "t3.micro" "B1s" 1
    _ _ _ rfl rfl rfl).2.1 rfl

/-- Display fallback on an absent value gives 0. -/
theorem fallback_zero_of_none (a : Option ℚ) (h : a = none) :
    fallback_zero (a.map PFloat.num) = 0 := by
  subst h
  rfl

/-- Exactly one present side wins under the comparator and is never a tie. -/
theorem cheapest_one_sided (a z : Option ℚ) :
    (a ≠ none → z = none → cheapest a z = "AWS" ∧ cheapest a z ≠ "Same") ∧
    (a = none → z ≠ none → cheapest a z = "Azure" ∧ cheapest a z ≠ "Same") := by
  constructor
  · intro h1 h2
    subst h2
    match a with
    | none => exact absurd rfl h1
    | some p => exact ⟨rfl, show ("AWS" : String) ≠ "Same" by decide⟩
  · intro h1 h2
    subst h1
    match z with
    | none => exact absurd rfl h2
    | some q => exact ⟨rfl, show ("Azure" : String) ≠ "Same" by decide⟩

/-- C5: in the database and load-balancer scenarios, an absent side is
displayed as 0.0 while the winner is computed from the pre-fallback
optional values, so the side with the only genuine price always wins and
the result is never a tie in that case. -/
theorem C5_zero_fallback_winner
    (dbAws : DbAwsQuery → Option ℚ) (dbAz : AzQuery → Option ℚ)
    (lbAws : LbAwsQuery → Option ℚ) (lbAz : AzQuery → Option ℚ)
    (region : String) (azure_region : Option String)
    (database_engine deployment_option license_model sku_name : String) (max_pages : ℕ)
    (a z la lz : Option ℚ) (dbOut lbOut : ZeroFallbackOut)
    (ha : a = db_aws_price dbAws region database_engine deployment_option license_model
      max_pages)
    (hz : z = db_azure_price dbAz (map_azure_region region azure_region) sku_name max_pages)
    (hla : la = lb_aws_price lbAws region max_pages)
    (hlz : lz = lb_azure_price lbAz (map_azure_region region azure_region) max_pages)
    (hdb : dbOut = compare_db_sql dbAws dbAz region azure_region database_engine
      deployment_option license_model sku_name max_pages)
    (hlb : lbOut = compare_load_balancer lbAws lbAz region azure_region max_pages) :
    (dbOut.cheapest_provider = cheapest a z ∧ lbOut.cheapest_provider = cheapest la lz) ∧
    (a = none → dbOut.aws_price_usd = 0) ∧
    (z = none → dbOut.azure_price_usd = 0) ∧
    (la = none → lbOut.aws_price_usd = 0) ∧
    (lz = none → lbOut.azure_price_usd = 0) ∧
    (a ≠ none → z = none → dbOut.cheapest_provider = "AWS" ∧
      dbOut.cheapest_provider ≠ "Same") ∧
    (a = none → z ≠ none → dbOut.cheapest_provider = "Azure" ∧
      dbOut.cheapest_provider ≠ "Same") ∧
    (la ≠ none → lz = none → lbOut.cheapest_provider = "AWS" ∧
      lbOut.cheapest_provider ≠ "Same") ∧
    (la = none → lz ≠ none → lbOut.cheapest_provider = "Azure" ∧
      lbOut.cheapest_provider ≠ "Same") := by
  subst ha hz hla hlz hdb hlb
  exact ⟨⟨rfl, rfl⟩,
    fun h => fallback_zero_of_none _ h,
    fun h => fallback_zero_of_none _ h,
    fun h => fallback_zero_of_none _ h,
    fun h => fallback_zero_of_none _ h,
    (cheapest_one_sided _ _).1,
    (cheapest_one_sided _ _).2,
    (cheapest_one_sided _ _).1,
    (cheapest_one_sided _ _).2⟩

/-- A constant present AWS database fetch. -/
def dbAwsConst5 : DbAwsQuery → Option ℚ :=
  fun _ => some 5

/-- An Azure fetch that never finds a price. -/
def azFetchNone : AzQuery → Option ℚ :=
  fun _ => none

/-- A load-balancer AWS fetch that never finds a price. -/
def lbAwsNone : LbAwsQuery → Option ℚ :=
  fun _ => none

/-- A constant present Azure fetch. -/
def azFetchConst4 : AzQuery → Option ℚ :=
  fun _ => some 4

/-- Witness for C5: the absent side displays 0.0 and the genuine side wins
in both fallback scenarios. -/
theorem C5_zero_fallback_winner_witness :
    (compare_db_sql dbAwsConst5 azFetchNone "us-west-2" none "MySQL" "Single-AZ"
        "License included" "GP_Gen5_2" 1).azure_price_usd = 0 ∧
    (compare_db_sql dbAwsConst5 azFetchNone "us-west-2" none "MySQL" "Single-AZ"
        "License included" "GP_Gen5_2" 1).cheapest_provider = "AWS" ∧
    (compare_load_balancer lbAwsNone azFetchConst4 "us-west-2" none 1).aws_price_usd = 0 ∧
    (compare_load_balancer lbAwsNone azFetchConst4 "us-west-2" none 1).cheapest_provider =
      "Azure" := by
  have h := C5_zero_fallback_winner dbAwsConst5 azFetchNone lbAwsNone azFetchConst4
    "us-west-2" none "MySQL" "Single-AZ" "License included" "GP_Gen5_2" 1
    _ _ _ _ _ _ rfl rfl rfl rfl rfl rfl
  exact ⟨h.2.2.1 rfl, (h.2.2.2.2.2.1 (by decide) rfl).1,
    h.2.2.2.1 rfl, (h.2.2.2.2.2.2.2.2 rfl (by decide)).1⟩

/-- C6: the block-storage comparison raises the client-visible 404 exactly
when both representative prices are absent; any non-success provider
response has already become an absent price inside `_min_price_from_...`;
otherwise a normal result is returned. -/
theorem C6_block_storage_not_found (ra : AwsResponse) (rz : AzureResponse) :
    (compare_block_storage ra rz = Except.error 404 ↔
      min_price_from_aws ra = none ∧ min_price_from_azure rz = none) ∧
    ((min_price_from_aws ra ≠ none ∨ min_price_from_azure rz ≠ none) →
      compare_block_storage ra rz =
        Except.ok ⟨min_price_from_aws ra, min_price_from_azure rz,
          cheapest (min_price_from_aws ra) (min_price_from_azure rz)⟩) ∧
    (ra.status ≠ 200 → min_price_from_aws ra = none) ∧
    (rz.status ≠ 200 → min_price_from_azure rz = none) := by
  refine ⟨?_, ?_, ?_, ?_⟩
  · cases h1 : min_price_from_aws ra with
    | none =>
      cases h2 : min_price_from_azure rz with
      | none => simp [compare_block_storage, h1, h2]
      | some q => simp [compare_block_storage, h1, h2]
    | some p =>
      cases h2 : min_price_from_azure rz with
      | none => simp [compare_block_storage, h1, h2]
      | some q => simp [compare_block_storage, h1, h2]
  · intro hne
    cases h1 : min_price_from_aws ra with
    | none =>
      cases h2 : min_price_from_azure rz with
      | none =>
        rw [h1, h2] at hne
        rcases hne with hne | hne <;> exact absurd rfl hne
      | some q => simp [compare_block_storage, h1, h2]
    | some p =>
      cases h2 : min_price_from_azure rz with
      | none => simp [compare_block_storage, h1, h2]
      | some q => simp [compare_block_storage, h1, h2]
  · intro h
    simp [min_price_from_aws, h]
  · intro h
    simp [min_price_from_azure, h]

/-- A failed internal AWS call. -/
def raErr : AwsResponse := ⟨500, []⟩

/-- A successful internal Azure call delivering one priced item. -/
def rzOk : AzureResponse := ⟨200, [⟨some ⟨"4", some 4⟩⟩]⟩

/-- Witness for C6: the failed AWS side degrades to an absent price, and
since Azure has a price the endpoint still answers normally. -/
theorem C6_block_storage_not_found_witness :
    min_price_from_aws raErr = none ∧
    compare_block_storage raErr rzOk =
      Except.ok ⟨min_price_from_aws raErr, min_price_from_azure rzOk,
        cheapest (min_price_from_aws raErr) (min_price_from_azure rzOk)⟩ :=
  ⟨(C6_block_storage_not_found raErr rzOk).2.2.1 (by decide),
   (C6_block_storage_not_found raErr rzOk).2.1 (Or.inr (by decide))⟩

/-! ### Pagination lemmas -/

theorem awsPaginateGo_pages_le (feed : ℕ → AwsPage) (fuel : ℕ) :
    ∀ (pages : ℕ) (acc : List String),
      (awsPaginateGo feed fuel pages acc).2 ≤ pages + fuel := by
  induction fuel with
  | zero => intro pages acc; simp [awsPaginateGo]
  | succ n ih =>
    intro pages acc
    cases h : (feed pages).nextToken with
    | none =>
      simp [awsPaginateGo, h]
    | some t =>
      have := ih (pages + 1) (acc ++ (feed pages).priceList)
      simp only [awsPaginateGo, h]
      omega

theorem awsPaginateGo_stops_early (feed : ℕ → AwsPage) :
    ∀ (k fuel pages : ℕ) (acc : List String), k < fuel →
      (∀ j, j < k → (feed (pages + j)).nextToken ≠ none) →
      (feed (pages + k)).nextToken = none →
      (awsPaginateGo feed fuel pages acc).2 = pages + k + 1 := by
  intro k
  induction k with
  | zero =>
    intro fuel pages acc hk hbefore hnone
    have h0 : (feed pages).nextToken = none := by simpa using hnone
    match fuel, hk with
    | n + 1, _ =>
      simp [awsPaginateGo, h0]
  | succ k ih =>
    intro fuel pages acc hk hbefore hnone
    have h0 : (feed pages).nextToken ≠ none := by
      simpa using hbefore 0 (Nat.succ_pos k)
    match fuel, hk with
    | n + 1, hk =>
      cases ht : (feed pages).nextToken with
      | none => exact absurd ht h0
      | some t =>
        have hrec : (awsPaginateGo feed (n + 1) pages acc).2 =
            (awsPaginateGo feed n (pages + 1) (acc ++ (feed pages).priceList)).2 := by
          simp [awsPaginateGo, ht]
        rw [hrec]
        have hb2 : ∀ j, j < k → (feed (pages + 1 + j)).nextToken ≠ none := by
          intro j hj
          have h2 := hbefore (j + 1) (by omega)
          have he : pages + (j + 1) = pages + 1 + j := by omega
          rw [he] at h2
          exact h2
        have hn2 : (feed (pages + 1 + k)).nextToken = none := by
          have he : pages + (k + 1) = pages + 1 + k := by omega
          rw [he] at hnone
          exact hnone
        have := ih n (pages + 1) (acc ++ (feed pages).priceList) (by omega) hb2 hn2
        rw [this]
        omega

theorem azureFetchGo_pages_le (feed : ℕ → AzurePage) (fuel : ℕ) :
    ∀ (pages : ℕ) (acc : List AzureItem),
      (azureFetchGo feed fuel pages acc).2 ≤ pages + fuel := by
  induction fuel with
  | zero => intro pages acc; simp [azureFetchGo]
  | succ n ih =>
    intro pages acc
    by_cases hs : (feed pages).status = 200
    · cases h : (feed pages).nextPageLink with
      | none =>
        simp [azureFetchGo, hs, h]
      | some t =>
        have := ih (pages + 1) (acc ++ (feed pages).items)
        simp only [azureFetchGo, hs, if_pos, h]
        omega
    · simp [azureFetchGo, hs]

theorem azureFetchGo_stops_early (feed : ℕ → AzurePage) :
    ∀ (k fuel pages : ℕ) (acc : List AzureItem), k < fuel →
      (∀ j, j < k → (feed (pages + j)).status = 200 ∧ (feed (pages + j)).nextPageLink ≠ none) →
      (feed (pages + k)).status = 200 →
      (feed (pages + k)).nextPageLink = none →
      (azureFetchGo feed fuel pages acc).2 = pages + k + 1 := by
  intro k
  induction k with
  | zero =>
    intro fuel pages acc hk hbefore hst hnone
    have h0 : (feed pages).nextPageLink = none := by simpa using hnone
    have hs0 : (feed pages).status = 200 := by simpa using hst
    match fuel, hk with
    | n + 1, _ =>
      simp [azureFetchGo, hs0, h0]
  | succ k ih =>
    intro fuel pages acc hk hbefore hst hnone
    obtain ⟨hs0, h0⟩ : (feed pages).status = 200 ∧ (feed pages).nextPageLink ≠ none := by
      simpa using hbefore 0 (Nat.succ_pos k)
    match fuel, hk with
    | n + 1, hk =>
      cases ht : (feed pages).nextPageLink with
      | none => exact absurd ht h0
      | some t =>
        have hrec : (azureFetchGo feed (n + 1) pages acc).2 =
            (azureFetchGo feed n (pages + 1) (acc ++ (feed pages).items)).2 := by
          simp [azureFetchGo, hs0, ht]
        rw [hrec]
        have hb2 : ∀ j, j < k →
            (feed (pages + 1 + j)).status = 200 ∧ (feed (pages + 1 + j)).nextPageLink ≠ none := by
          intro j hj
          have h2 := hbefore (j + 1) (by omega)
          have he : pages + (j + 1) = pages + 1 + j := by omega
          rw [he] at h2
          exact h2
        have he : pages + (k + 1) = pages + 1 + k := by omega
        rw [he] at hst hnone
        have := ih n (pages + 1) (acc ++ (feed pages).items) (by omega) hb2 hst hnone
        rw [this]
        omega

/-- C7: both provider fetch loops make at most maxPages page requests even
when every page carries a continuation cursor, and both stop right after
the first page that carries no cursor. -/
theorem C7_pagination_bounds (feedA : ℕ → AwsPage) (feedZ : ℕ → AzurePage) (m : ℕ)
    (_hm : 1 ≤ m) :
    ((get_products_paginated feedA m).2 ≤ m) ∧
    (∀ k, k < m → (∀ j, j < k → (feedA j).nextToken ≠ none) → (feedA k).nextToken = none →
      (get_products_paginated feedA m).2 = k + 1) ∧
    ((fetch feedZ m).2 ≤ m) ∧
    (∀ k, k < m → (∀ j, j < k → (feedZ j).status = 200 ∧ (feedZ j).nextPageLink ≠ none) →
      (feedZ k).status = 200 → (feedZ k).nextPageLink = none →
      (fetch feedZ m).2 = k + 1) := by
  refine ⟨?_, ?_, ?_, ?_⟩
  · simpa using awsPaginateGo_pages_le feedA m 0 []
  · intro k hk hb hn
    have := awsPaginateGo_stops_early feedA k m 0 [] hk
      (fun j hj => by simpa using hb j hj) (by simpa using hn)
    simpa using this
  · simpa using azureFetchGo_pages_le feedZ m 0 []
  · intro k hk hb hs hn
    have := azureFetchGo_stops_early feedZ k m 0 [] hk
      (fun j hj => by simpa using hb j hj) (by simpa using hs) (by simpa using hn)
    simpa using this

/-- A feed that supplies a continuation cursor on every page. -/
def alwaysCursorFeed : ℕ → AwsPage :=
  fun _ => ⟨[], some "tok"⟩

/-- An Azure feed whose first page links onward and whose second page has no
next-page link. -/
def stopAtOneFeedZ : ℕ → AzurePage :=
  fun n => ⟨200, "", [], if n = 0 then some "next" else none⟩

/-- Witness for C7 at maxPages 3: the never-ending AWS feed is cut off at
the bound, and the Azure feed that stops linking after its second page
ends the loop after exactly two pages. -/
theorem C7_pagination_bounds_witness :
    (get_products_paginated alwaysCursorFeed 3).2 ≤ 3 ∧
    (fetch stopAtOneFeedZ 3).2 = 1 + 1 := by
  have h := C7_pagination_bounds alwaysCursorFeed stopAtOneFeedZ 3 (by decide)
  refine ⟨h.1, ?_⟩
  exact h.2.2.2 1 (by decide)
    (fun j hj => by
      have hj0 : j = 0 := by omega
      subst hj0
      exact ⟨rfl, by decide⟩)
    rfl rfl

/-- Counterexample to C9 as stated: max_pages = 6 lies inside the spec's
1..10 bound, yet the VM/storage scenario endpoint rejects it (its declared
bound is ge=1, le=5); az-coverage even rejects 3. -/
theorem C9_page_bound_counterexample :
    spec_max_pages_ok 6 = true ∧ max_pages_ok Scenario.service 6 = false ∧
    spec_max_pages_ok 3 = true ∧ max_pages_ok Scenario.azCoverage 3 = false := by
  exact ⟨by decide, by decide, by decide, by decide⟩

/-- C9 amended: every scenario endpoint accepts a page-count of 1 to 5
inclusive, except the az-coverage endpoint which accepts 1 to 2; a value
outside the endpoint's declared bounds is rejected as an invalid query
parameter at validation time, before the handler (and any fetch) runs. -/
theorem C9_page_bound_amended (s : Scenario) (n : ℤ) :
    max_pages_ok s n = true ↔
      (1 ≤ n ∧ n ≤ if s = Scenario.azCoverage then 2 else 5) := by
  cases s <;> simp [max_pages_ok, max_pages_bounds]

end Gateway
